import Mathlib

/-!
Verification development for the DreamPort Maple Bus transport stack.
Machine words are modelled as `Nat` with explicit reductions modulo powers
of two where the C code relies on fixed-width behavior.
-/

namespace DreamPort

/-- Bus phases, per `MapleBusInterface::Phase`. -/
inductive Phase where
  | IDLE
  | WRITE_IN_PROGRESS
  | WAITING_FOR_READ_START
  | READ_IN_PROGRESS
  | READ_COMPLETE
  | WRITE_COMPLETE
  | READ_FAILED
  | WRITE_FAILED
  deriving DecidableEq, Repr

/-- Failure reasons carried by terminal phases, per `MapleBusInterface::FailureReason`. -/
inductive FailureReason where
  | NONE
  | CRC_INVALID
  | MISSING_DATA
  | BUFFER_OVERFLOW
  | TIMEOUT
  deriving DecidableEq, Repr

/-- Embedding of `MapleBus::crc8(uint32_t source, uint8_t&)` (MapleBus.cpp:592-600): XORs the four
bytes of the 32-bit word into the running 8-bit CRC (byte order is irrelevant to XOR). -/
def crc8Word (source crc : Nat) : Nat :=
  crc ^^^ (source % 256) ^^^ ((source >>> 8) % 256)
      ^^^ ((source >>> 16) % 256) ^^^ ((source >>> 24) % 256)

/-- Embedding of `MapleBus::crc8(volatile const uint32_t*, uint32_t, uint8_t&)` (MapleBus.cpp:580-590):
accumulates a 32-bit XOR of all words, then condenses it into the 8-bit CRC. -/
def crc8List (words : List Nat) (crc : Nat) : Nat :=
  crc8Word (words.foldl (· ^^^ ·) 0) crc

/-- The CRC computed by `MapleBus::write` (MapleBus.cpp:291-293):
`crc = 0; crc8(frameWord, crc); crc8(payload, payload.size(), crc)`. -/
def writeCrc (frameWord : Nat) (payload : List Nat) : Nat :=
  crc8List payload (crc8Word frameWord 0)

/-- The four bytes of a 32-bit word, least significant first. -/
def wordBytes (w : Nat) : List Nat :=
  [w % 256, (w >>> 8) % 256, (w >>> 16) % 256, (w >>> 24) % 256]

/-- XOR of a list of bytes. -/
def xorOfBytes (bytes : List Nat) : Nat :=
  bytes.foldr (· ^^^ ·) 0

/-- Specification-side CRC, following the spec's words: the XOR of every byte of the
`4*(1+N)` bytes of the frame word plus payload words. -/
def specByteXorCrc (frameWord : Nat) (payload : List Nat) : Nat :=
  xorOfBytes (((frameWord :: payload).map wordBytes).flatten)

theorem natXor_left_comm (a b c : Nat) : a ^^^ (b ^^^ c) = b ^^^ (a ^^^ c) := by
  rw [← Nat.xor_assoc, Nat.xor_comm a b, Nat.xor_assoc]

theorem byte_of_xor (a b k : Nat) :
    ((a ^^^ b) >>> k) % 256 = (((a >>> k) % 256) ^^^ ((b >>> k) % 256)) := by
  have h256 : (256 : Nat) = 2 ^ 8 := by norm_num
  rw [h256]
  apply Nat.eq_of_testBit_eq
  intro i
  simp only [Nat.testBit_mod_two_pow, Nat.testBit_shiftRight, Nat.testBit_xor,
    Bool.and_xor_distrib_left]

theorem crc8Word_xor (a b : Nat) :
    crc8Word (a ^^^ b) 0 = crc8Word a 0 ^^^ crc8Word b 0 := by
  simp only [crc8Word]
  rw [show (a ^^^ b) % 256 = ((a ^^^ b) >>> 0) % 256 by rfl,
      show a % 256 = ((a >>> 0) % 256) by rfl,
      show b % 256 = ((b >>> 0) % 256) by rfl]
  simp only [byte_of_xor]
  simp [Nat.xor_assoc, Nat.xor_comm, natXor_left_comm]

theorem crc8Word_foldl (ws : List Nat) (a : Nat) :
    crc8Word (ws.foldl (· ^^^ ·) a) 0
      = ws.foldl (fun c w => c ^^^ crc8Word w 0) (crc8Word a 0) := by
  induction ws generalizing a with
  | nil => rfl
  | cons w ws ih =>
    simp only [List.foldl_cons]
    rw [ih, crc8Word_xor]

theorem xorOfBytes_append (l₁ l₂ : List Nat) :
    xorOfBytes (l₁ ++ l₂) = xorOfBytes l₁ ^^^ xorOfBytes l₂ := by
  induction l₁ with
  | nil => simp [xorOfBytes]
  | cons b l ih =>
    simp only [xorOfBytes, List.foldr_cons, List.cons_append] at *
    rw [ih, Nat.xor_assoc]

theorem xorOfBytes_wordBytes (w : Nat) : xorOfBytes (wordBytes w) = crc8Word w 0 := by
  simp [xorOfBytes, wordBytes, crc8Word, Nat.xor_assoc]

theorem crc8Word_arg_zero (c : Nat) : crc8Word 0 c = c := by
  simp [crc8Word]

theorem crc8Word_shift (a c : Nat) : crc8Word a c = c ^^^ crc8Word a 0 := by
  simp [crc8Word, Nat.xor_assoc]

theorem crc8Word_foldl_bytes (ws : List Nat) (a : Nat) :
    crc8Word (ws.foldl (· ^^^ ·) a) 0
      = crc8Word a 0 ^^^ xorOfBytes ((ws.map wordBytes).flatten) := by
  induction ws generalizing a with
  | nil => simp [xorOfBytes]
  | cons w ws ih =>
    simp only [List.foldl_cons, List.map_cons, List.flatten_cons]
    rw [ih, crc8Word_xor, xorOfBytes_append, xorOfBytes_wordBytes, Nat.xor_assoc]

theorem crc8Word_lt (s c : Nat) (hc : c < 256) : crc8Word s c < 256 := by
  have h256 : (256 : Nat) = 2 ^ 8 := by norm_num
  rw [h256] at hc ⊢
  exact Nat.xor_lt_two_pow
    (Nat.xor_lt_two_pow
      (Nat.xor_lt_two_pow
        (Nat.xor_lt_two_pow hc (h256 ▸ Nat.mod_lt _ (by norm_num)))
        (h256 ▸ Nat.mod_lt _ (by norm_num)))
      (h256 ▸ Nat.mod_lt _ (by norm_num)))
    (h256 ▸ Nat.mod_lt _ (by norm_num))

theorem writeCrc_lt (fw : Nat) (payload : List Nat) : writeCrc fw payload < 256 := by
  unfold writeCrc crc8List
  exact crc8Word_lt _ _ (crc8Word_lt _ _ (by norm_num))

theorem lor_shift16_mod256 (c y : Nat) (hc : c < 256) : (c ||| (y <<< 16)) % 256 = c := by
  conv_rhs => rw [← Nat.mod_eq_of_lt hc]
  have h256 : (256 : Nat) = 2 ^ 8 := by norm_num
  rw [h256]
  apply Nat.eq_of_testBit_eq
  intro i
  simp only [Nat.testBit_mod_two_pow, Nat.testBit_lor, Nat.testBit_shiftLeft]
  by_cases hi : i < 8
  · have : ¬ (16 ≤ i) := by omega
    simp [hi, this]
  · simp [hi]

/-- Embedding of `MapleBus::flipWordBytes` (MapleBus.cpp:612-615), on 32-bit words. -/
def flipWordBytes (word : Nat) : Nat :=
  let w := word % 2 ^ 32
  ((w <<< 24) % 2 ^ 32) ||| ((w <<< 8) &&& 0xFF0000) ||| ((w >>> 8) &&& 0xFF00) ||| (w >>> 24)

/-- The TX buffer built by `MapleBus::write` on the undelayed path (MapleBus.cpp:295-315):
bit-count preamble, frame word, payload words, then the CRC byte packed with the
end-sequence program words `e 0 .. e 6` (16-bit PIO instructions, parameters here since
the PIO assembly lives outside the transport sources).  The total bit count
`(1 + length) * 32 + 8` is `MaplePacket::getNumTotalBits`, per the spec's data model. -/
def writeBufferNoDelay (e : Fin 7 → Nat) (fw : Nat) (payload : List Nat) : List Nat :=
  let crc := writeCrc fw payload
  [flipWordBytes ((1 + payload.length) * 32 + 8), fw] ++ payload ++
    [crc ||| (e 0 <<< 16),
     (e 1) ||| (e 2 <<< 16),
     (e 3) ||| (e 4 <<< 16),
     (e 5) ||| (e 6 <<< 16)]

set_option maxRecDepth 4096 in
/-- C1. For every packet, the 8-bit CRC the Bus Driver appends when transmitting
(computed at MapleBus.cpp:291-293 and stored in the low byte of the word following the
payload in the TX buffer) equals the XOR of every byte of the `4*(1+length)` bytes of the
frame word plus payload words; in particular, for the packet with frame word `0x010000FF`
and 255 payload words all zero, this CRC is `0xFE`. -/
theorem C1_write_crc_is_byte_xor (e : Fin 7 → Nat) (fw : Nat) (payload : List Nat) :
    writeCrc fw payload = specByteXorCrc fw payload ∧
    (writeBufferNoDelay e fw payload).getD (2 + payload.length) 0 % 256
      = writeCrc fw payload ∧
    writeCrc 0x010000FF (List.replicate 255 0) = 0xFE := by
  refine ⟨?_, ?_, by decide⟩
  · unfold writeCrc crc8List specByteXorCrc
    rw [crc8Word_shift, crc8Word_foldl_bytes, crc8Word_arg_zero, Nat.zero_xor]
    simp only [List.map_cons, List.flatten_cons]
    rw [xorOfBytes_append, xorOfBytes_wordBytes]
  · unfold writeBufferNoDelay
    rw [show [flipWordBytes ((1 + payload.length) * 32 + 8), fw] ++ payload ++ _
          = ([flipWordBytes ((1 + payload.length) * 32 + 8), fw] ++ payload) ++ _ from rfl]
    rw [List.getD_append_right _ _ _ _
      (by simp only [List.length_append, List.length_cons, List.length_nil]; omega)]
    simp only [List.length_append, List.length_cons, List.length_nil]
    rw [show 2 + payload.length - (0 + 1 + 1 + payload.length) = 0 by omega]
    exact lor_shift16_mod256 _ _ (writeCrc_lt fw payload)

/-- Modelled from the spec: the RX DMA buffer capacity in 32-bit words.  `MapleBus.hpp`
(which declares `mReadBuffer`) is not among the transport sources; the spec's data model
fixes it as one extra word beyond the protocol maximum of 255 payload words plus frame
word plus CRC word, i.e. 258. -/
def READ_BUFFER_LEN : Nat := 258

/-- The observable state of one `MapleBus` instance.  Hardware effects are reflected as
fields: `smOutRunning`/`smInRunning` track whether the TX/RX PIO state machines are
started, and `dirOutMode` tracks the level last driven on the direction pin
(`true` = output mode) when `mDirPin ≥ 0`. -/
structure BusState where
  mCurrentPhase : Phase
  mReadBuffer : List Nat
  mLastRead : List Nat
  mLastReadTransferCount : Nat
  mLastReceivedWordTimeUs : Nat
  mProcKillTime : Nat
  mExpectingResponse : Bool
  mResponseTimeoutUs : Nat
  mDirPin : Int
  smOutRunning : Bool
  smInRunning : Bool
  dirOutMode : Bool
  deriving DecidableEq, Repr

/-- The `Status` returned by `MapleBusInterface::processEvents`. -/
structure Status where
  phase : Phase
  failureReason : FailureReason
  readBuffer : List Nat
  readBufferLen : Nat
  deriving DecidableEq, Repr

/-- Status before any branch runs: current phase, no failure, no buffer. -/
def Status.init (p : Phase) : Status :=
  { phase := p, failureReason := FailureReason.NONE, readBuffer := [], readBufferLen := 0 }

/-- Embedding of `gpio_put(mDirPin, level)` guarded by `mDirPin >= 0`. -/
def putDirPin (s : BusState) (level : Bool) : BusState :=
  if 0 ≤ s.mDirPin then { s with dirOutMode := level } else s

/-- Embedding of `MapleBus::processEvents(uint64_t currentTimeUs)` (MapleBus.cpp:447-578).
`interWordTimeoutUs` stands for the build constant `MAPLE_INTER_WORD_READ_TIMEOUT_US`;
`transferCount` is the value read from the RX DMA channel's `transfer_count` register
(which decrements from `READ_BUFFER_LEN` to 0 as words arrive).  Returns the `Status`
handed to the caller together with the successor state. -/
def processEvents (interWordTimeoutUs : Nat) (s : BusState) (currentTimeUs : Nat)
    (transferCount : Nat) : Status × BusState :=
  let status := Status.init s.mCurrentPhase
  if s.mCurrentPhase = Phase.READ_COMPLETE then
    -- (the ≤1 ms FIFO drain only affects the register value sampled into `transferCount`)
    let dmaWordsRead := READ_BUFFER_LEN - transferCount
    if dmaWordsRead > 1 then
      let len := (s.mReadBuffer.getD 0 0) &&& 0xFF
      if len ≤ dmaWordsRead - 2 then
        let lastRead := s.mReadBuffer.take (dmaWordsRead - 1)
        let crc := crc8List lastRead 0
        if crc = s.mReadBuffer.getD (dmaWordsRead - 1) 0 then
          ({ status with readBuffer := lastRead, readBufferLen := dmaWordsRead - 1 },
           { s with mCurrentPhase := Phase.IDLE, mLastRead := lastRead })
        else
          ({ status with phase := Phase.READ_FAILED,
                         failureReason := FailureReason.CRC_INVALID },
           { s with mCurrentPhase := Phase.IDLE, mLastRead := lastRead })
      else
        ({ status with phase := Phase.READ_FAILED,
                       failureReason := FailureReason.MISSING_DATA },
         { s with mCurrentPhase := Phase.IDLE })
    else
      ({ status with phase := Phase.READ_FAILED,
                     failureReason := FailureReason.MISSING_DATA },
       { s with mCurrentPhase := Phase.IDLE })
  else if s.mCurrentPhase = Phase.WRITE_COMPLETE then
    (status, { s with mCurrentPhase := Phase.IDLE })
  else if s.mCurrentPhase = Phase.READ_IN_PROGRESS then
    if transferCount = 0 then
      ({ status with phase := Phase.READ_FAILED,
                     failureReason := FailureReason.BUFFER_OVERFLOW },
       { s with mCurrentPhase := Phase.IDLE })
    else if s.mLastReadTransferCount = transferCount then
      if currentTimeUs > s.mLastReceivedWordTimeUs
          ∧ currentTimeUs - s.mLastReceivedWordTimeUs ≥ interWordTimeoutUs then
        ({ status with phase := Phase.READ_FAILED,
                       failureReason := FailureReason.TIMEOUT },
         { s with mCurrentPhase := Phase.IDLE, smInRunning := false })
      else
        (status, s)
    else
      (status, { s with mLastReadTransferCount := transferCount,
                        mLastReceivedWordTimeUs := currentTimeUs })
  else if s.mCurrentPhase ≠ Phase.IDLE ∧ currentTimeUs ≥ s.mProcKillTime then
    if s.mCurrentPhase = Phase.WAITING_FOR_READ_START then
      ({ status with phase := Phase.READ_FAILED,
                     failureReason := FailureReason.TIMEOUT },
       { s with mCurrentPhase := Phase.IDLE, smInRunning := false })
    else
      ({ status with phase := Phase.WRITE_FAILED,
                     failureReason := FailureReason.TIMEOUT },
       putDirPin { s with mCurrentPhase := Phase.IDLE,
                          smOutRunning := false, smInRunning := false } false)
  else
    (status, s)

/-- Embedding of `MapleBus::lineCheck` (MapleBus.cpp:254-271): both data lines must read high for the
whole pre-write window; the loop aborts at the first low sample.  `samples` is the
sequence of `(gpio_get_all() & mMaskAB) == mMaskAB` observations made during the window
(empty when `MAPLE_OPEN_LINE_CHECK_TIME_US == 0` compiles the check out). -/
def lineCheck (samples : List Bool) : Bool :=
  samples.all id

/-- Embedding of `MapleBus::write` (MapleBus.cpp:273-404), state-transition view.  Modelled from the
spec for the guard only: `isBusy()` is declared in `MapleBus.hpp` (outside the transport
sources); per the spec a new operation may begin only when `phase == IDLE`, so the guard
is `mCurrentPhase ≠ IDLE`.  The TX buffer content is `writeBufferNoDelay`; the timeout
computed from `getTxTimeNs`, the slack percentage and chunk delays is abstracted as
`txDurationUs`, so `mProcKillTime` becomes `now + txDurationUs`. -/
def write (s : BusState) (autostartRead : Bool) (readTimeoutUs : Nat)
    (lineSamples : List Bool) (now txDurationUs : Nat) : Bool × BusState :=
  if s.mCurrentPhase ≠ Phase.IDLE then
    (false, s)
  else if lineCheck lineSamples then
    (true,
      putDirPin
        { s with mExpectingResponse := autostartRead,
                 mResponseTimeoutUs := readTimeoutUs,
                 mCurrentPhase := Phase.WRITE_IN_PROGRESS,
                 mLastReadTransferCount :=
                   if autostartRead then READ_BUFFER_LEN else s.mLastReadTransferCount,
                 smInRunning := autostartRead || s.smInRunning,
                 smOutRunning := true,
                 mProcKillTime := now + txDurationUs }
        true)
  else
    (false, s)

/-- The packet frame header: `{command, recipientAddr, senderAddr, length}`, each a byte. -/
structure Frame where
  command : Nat
  recipientAddr : Nat
  senderAddr : Nat
  length : Nat
  deriving DecidableEq, Repr

/-- Modelled from the spec: `MaplePacket.hpp` is not among the transport sources; the
spec fixes the frame word layout as command[31:24], recipient[23:16], sender[15:8],
length[7:0]. -/
def Frame.fromWord (w : Nat) : Frame :=
  { command := (w >>> 24) &&& 0xFF
    recipientAddr := (w >>> 16) &&& 0xFF
    senderAddr := (w >>> 8) &&& 0xFF
    length := w &&& 0xFF }

/-- Modelled from the spec: the default frame a `MaplePacket` holds after `reset()`.
Every field is overwritten before use by the code paths modelled here. -/
def Frame.defaultFrame : Frame :=
  { command := 0, recipientAddr := 0, senderAddr := 0, length := 0 }

/-- A Maple packet: frame header plus payload words. -/
structure MaplePacket where
  frame : Frame
  payload : List Nat
  deriving DecidableEq, Repr

/-- Embedding of `MaplePacket::isValid`, per the spec's data model: the payload size matches the
frame's length field. -/
def MaplePacket.isValid (p : MaplePacket) : Bool :=
  p.payload.length == p.frame.length

/-- Modelled from the spec: `MaplePacket::set(words, len)` parses a received buffer —
word 0 is the frame word, the following words are payload, and the frame's 8-bit length
field dictates the authoritative payload size up to `len - 1`. -/
def MaplePacket.set (words : List Nat) (len : Nat) : MaplePacket :=
  let frame := Frame.fromWord (words.getD 0 0)
  { frame := frame, payload := (words.drop 1).take (min frame.length (len - 1)) }

/-- Modelled from the spec: the Maple command opcode requesting retransmission of the
last packet (`dreamcast_constants.h` is not among the transport sources; the value is
the Maple specification's resend opcode). -/
def COMMAND_RESPONSE_REQUEST_RESEND : Nat := 0xFF

/-- State carried across iterations of the client pump loop in
`client_pico_non_volatile_mem.cpp::core0` (lines 78-85). -/
structure ClientState where
  lastSender : Nat
  packetSent : Bool
  lastPacketOut : MaplePacket
  deriving DecidableEq, Repr

/-- One iteration of the read-handling portion of `core0`'s pump loop
(client_pico_non_volatile_mem.cpp:97-152), from the terminal read `Status` to the updated
client state and the packet written back on the bus (if any).  `dispense` abstracts
`mainPeripheral.dispensePacket` (peripheral logic, outside the transport sources),
`isConnected` abstracts `mainPeripheral.isConnected()`, and `mainAddr` abstracts
`mainPeripheral.getAddress()`. -/
def core0HandleRead (dispense : MaplePacket → Option MaplePacket) (st : ClientState)
    (status : Status) (isConnected : Bool) (mainAddr : Nat) :
    ClientState × Option MaplePacket :=
  if status.phase = Phase.READ_COMPLETE then
    let packetIn := MaplePacket.set status.readBuffer status.readBufferLen
    let st1 := { st with lastSender := packetIn.frame.senderAddr }
    if packetIn.frame.command = COMMAND_RESPONSE_REQUEST_RESEND then
      if st.packetSent then
        ({ st1 with packetSent := true, lastPacketOut := st.lastPacketOut },
         some st.lastPacketOut)
      else
        (st1, none)
    else
      match dispense packetIn with
      | some out => ({ st1 with packetSent := true, lastPacketOut := out }, some out)
      | none => (st1, none)
  else if status.phase = Phase.READ_FAILED
      ∧ status.failureReason = FailureReason.CRC_INVALID ∧ isConnected = true then
    let out : MaplePacket :=
      { frame := { Frame.defaultFrame with
                     command := COMMAND_RESPONSE_REQUEST_RESEND,
                     recipientAddr := st.lastSender,
                     senderAddr := mainAddr,
                     length := 0 },
        payload := [] }
    (st, some out)
  else
    (st, none)

/-- The scheduling decision of `FlycastCommandParser::submit` for an already parsed
packet (FlycastCommandParser.cpp:476-525): `none` when nothing is scheduled (invalid
packet or unknown sender), otherwise the scheduler index and the packet as scheduled.
With exactly one configured sender address, the sender is rewritten to it and the
recipient becomes `(recipientAddr & 0x3F) | senderAddress`. -/
def flycastSchedule (packet : MaplePacket) (senderAddresses : List Nat) :
    Option (Nat × MaplePacket) :=
  if packet.isValid then
    if senderAddresses.length = 1 then
      let sa := senderAddresses.getD 0 0
      some (0, { packet with frame := { packet.frame with
          senderAddr := sa,
          recipientAddr := (packet.frame.recipientAddr &&& 0x3F) ||| sa } })
    else
      match senderAddresses.findIdx? (· = packet.frame.senderAddr) with
      | some i => some (i, packet)
      | none => none
  else
    none

/-- Modelled from the spec: `PrioritizedTxScheduler::computeNextTimeCadence` — its
implementation file is not among the transport sources (only the declaration in the
scheduler header, part_000:118-125).  Per the spec it returns the smallest value
strictly greater than `currentTime` that is congruent to `offset` modulo `period`
(callers guarantee `period > 0`). -/
def computeNextTimeCadence (currentTime period offset : Nat) : Nat :=
  if currentTime < currentTime / period * period + offset % period then
    currentTime / period * period + offset % period
  else
    currentTime / period * period + offset % period + period

/-- Value of `ScreenData::NUM_DEFAULT_SCREENS`: the `DEFAULT_SCREENS` initializer in part_004
has exactly four rows. -/
def NUM_DEFAULT_SCREENS : Nat := 4

/-- The sanitization applied to `defaultScreenNum` by both `ScreenData::ScreenData`
(part_004:69-72) and `ScreenData::setDataToADefault` (part_004:94-97) before indexing
`DEFAULT_SCREENS`: arguments greater than `NUM_DEFAULT_SCREENS` are replaced by 0. -/
def clampDefaultScreenNum (defaultScreenNum : Nat) : Nat :=
  if defaultScreenNum > NUM_DEFAULT_SCREENS then 0 else defaultScreenNum

/-- C2. In phase `READ_COMPLETE`, `processEvents` validates the received buffer:
fewer than 2 words, or a frame length field exceeding `wordsRead - 2`, gives
`READ_FAILED(MISSING_DATA)`; a recomputed CRC differing from the last received word gives
`READ_FAILED(CRC_INVALID)`; otherwise the returned `Status` carries the read words and
their count; in every case the internal phase becomes `IDLE`. -/
theorem C2_read_complete_validation (iw : Nat) (s : BusState)
    (h : s.mCurrentPhase = Phase.READ_COMPLETE) (now tc : Nat) :
    (processEvents iw s now tc).2.mCurrentPhase = Phase.IDLE ∧
    (READ_BUFFER_LEN - tc < 2 →
      (processEvents iw s now tc).1.phase = Phase.READ_FAILED ∧
      (processEvents iw s now tc).1.failureReason = FailureReason.MISSING_DATA) ∧
    (2 ≤ READ_BUFFER_LEN - tc →
      (s.mReadBuffer.getD 0 0) &&& 0xFF > READ_BUFFER_LEN - tc - 2 →
      (processEvents iw s now tc).1.phase = Phase.READ_FAILED ∧
      (processEvents iw s now tc).1.failureReason = FailureReason.MISSING_DATA) ∧
    (2 ≤ READ_BUFFER_LEN - tc →
      (s.mReadBuffer.getD 0 0) &&& 0xFF ≤ READ_BUFFER_LEN - tc - 2 →
      crc8List (s.mReadBuffer.take (READ_BUFFER_LEN - tc - 1)) 0
        ≠ s.mReadBuffer.getD (READ_BUFFER_LEN - tc - 1) 0 →
      (processEvents iw s now tc).1.phase = Phase.READ_FAILED ∧
      (processEvents iw s now tc).1.failureReason = FailureReason.CRC_INVALID) ∧
    (2 ≤ READ_BUFFER_LEN - tc →
      (s.mReadBuffer.getD 0 0) &&& 0xFF ≤ READ_BUFFER_LEN - tc - 2 →
      crc8List (s.mReadBuffer.take (READ_BUFFER_LEN - tc - 1)) 0
        = s.mReadBuffer.getD (READ_BUFFER_LEN - tc - 1) 0 →
      (processEvents iw s now tc).1.phase = Phase.READ_COMPLETE ∧
      (processEvents iw s now tc).1.failureReason = FailureReason.NONE ∧
      (processEvents iw s now tc).1.readBuffer
        = s.mReadBuffer.take (READ_BUFFER_LEN - tc - 1) ∧
      (processEvents iw s now tc).1.readBufferLen = READ_BUFFER_LEN - tc - 1) := by
  simp only [processEvents, h, Status.init]
  split_ifs with h1 h2 h3 <;>
    refine ⟨rfl, fun hlt => ?_, fun hge hlen => ?_, fun hge hlen hcrc => ?_,
      fun hge hlen hcrc => ?_⟩ <;>
    first
      | exact ⟨rfl, rfl⟩
      | exact ⟨rfl, rfl, rfl, rfl⟩
      | omega

/-- A one-word read delivered to `READ_COMPLETE` (RX residual 257 of 258). -/
def shortReadState : BusState :=
  { mCurrentPhase := Phase.READ_COMPLETE, mReadBuffer := [0], mLastRead := [],
    mLastReadTransferCount := 257, mLastReceivedWordTimeUs := 0, mProcKillTime := 0,
    mExpectingResponse := false, mResponseTimeoutUs := 0, mDirPin := -1,
    smOutRunning := false, smInRunning := false, dirOutMode := false }

/-- Witness for C2: with exactly 1 word received the result is
`READ_FAILED(MISSING_DATA)` and the phase reverts to `IDLE`. -/
theorem C2_read_complete_validation_witness :
    (processEvents 0 shortReadState 0 257).1.phase = Phase.READ_FAILED ∧
    (processEvents 0 shortReadState 0 257).1.failureReason = FailureReason.MISSING_DATA ∧
    (processEvents 0 shortReadState 0 257).2.mCurrentPhase = Phase.IDLE := by
  have h := C2_read_complete_validation 0 shortReadState rfl 0 257
  exact ⟨(h.2.1 (by decide)).1, (h.2.1 (by decide)).2, h.1⟩

/-- A bus mid-read: last observed residual 5, last word seen at t = 100 µs, kill time
already expired (t = 0) to underline that it plays no role while reading. -/
def midReadState : BusState :=
  { mCurrentPhase := Phase.READ_IN_PROGRESS, mReadBuffer := [], mLastRead := [],
    mLastReadTransferCount := 5, mLastReceivedWordTimeUs := 100, mProcKillTime := 0,
    mExpectingResponse := false, mResponseTimeoutUs := 0, mDirPin := -1,
    smOutRunning := false, smInRunning := true, dirOutMode := false }

/-- C4 counterexample. Polling `midReadState` at t = 150 µs with an unchanged
residual of 5 and an inter-word timeout of 1000 µs is a non-failing poll (the claim's
"otherwise" case), yet the last-seen word timestamp stays 100 and is not updated to the
poll time 150 — refuting "otherwise the last-seen residual and timestamp are updated". -/
theorem C4_timestamp_not_updated_counterexample :
    (processEvents 1000 midReadState 150 5).1.phase = Phase.READ_IN_PROGRESS ∧
    (processEvents 1000 midReadState 150 5).1.failureReason = FailureReason.NONE ∧
    (processEvents 1000 midReadState 150 5).2.mLastReceivedWordTimeUs = 100 ∧
    (100 : Nat) ≠ 150 := by
  decide

/-- C4 amended. While phase is `READ_IN_PROGRESS`, `processEvents` never fails a
read because of `procKillTime` (the returned status is independent of it): the only
failures are residual 0 → `READ_FAILED(BUFFER_OVERFLOW)` and unchanged residual with the
inter-word timeout elapsed → `READ_FAILED(TIMEOUT)`; when the residual has changed the
last-seen residual and timestamp are updated and the phase stays `READ_IN_PROGRESS`;
when the residual is unchanged but the timeout has not elapsed, the state is left
untouched and the phase stays `READ_IN_PROGRESS`. -/
theorem C4_read_in_progress_behavior (iw : Nat) (s : BusState)
    (h : s.mCurrentPhase = Phase.READ_IN_PROGRESS) (now tc : Nat) :
    (∀ k, (processEvents iw { s with mProcKillTime := k } now tc).1
        = (processEvents iw s now tc).1) ∧
    (tc = 0 →
      (processEvents iw s now tc).1.phase = Phase.READ_FAILED ∧
      (processEvents iw s now tc).1.failureReason = FailureReason.BUFFER_OVERFLOW ∧
      (processEvents iw s now tc).2.mCurrentPhase = Phase.IDLE) ∧
    (tc ≠ 0 → s.mLastReadTransferCount = tc →
      now > s.mLastReceivedWordTimeUs → now - s.mLastReceivedWordTimeUs ≥ iw →
      (processEvents iw s now tc).1.phase = Phase.READ_FAILED ∧
      (processEvents iw s now tc).1.failureReason = FailureReason.TIMEOUT ∧
      (processEvents iw s now tc).2.mCurrentPhase = Phase.IDLE) ∧
    (tc ≠ 0 → s.mLastReadTransferCount = tc →
      ¬(now > s.mLastReceivedWordTimeUs ∧ now - s.mLastReceivedWordTimeUs ≥ iw) →
      (processEvents iw s now tc) = (Status.init Phase.READ_IN_PROGRESS, s)) ∧
    (tc ≠ 0 → s.mLastReadTransferCount ≠ tc →
      (processEvents iw s now tc)
        = (Status.init Phase.READ_IN_PROGRESS,
           { s with mLastReadTransferCount := tc, mLastReceivedWordTimeUs := now })) := by
  simp only [processEvents, h, Status.init]
  refine ⟨fun k => ?_, fun h0 => ?_, fun h0 heq ht1 ht2 => ?_, fun h0 heq hnt => ?_,
    fun h0 hne => ?_⟩ <;>
    split_ifs <;> first | rfl | omega | simp_all

/-- Witness for C4 (amended): at `midReadState` with poll time 150, a decreased residual
4 updates the last-seen residual and timestamp and keeps the phase `READ_IN_PROGRESS`. -/
theorem C4_read_in_progress_behavior_witness :
    (processEvents 1000 midReadState 150 4)
      = (Status.init Phase.READ_IN_PROGRESS,
         { midReadState with mLastReadTransferCount := 4,
                             mLastReceivedWordTimeUs := 150 }) := by
  exact (C4_read_in_progress_behavior 1000 midReadState rfl 150 4).2.2.2.2
    (by decide) (by decide)

/-- C5. When `processEvents` runs with `now ≥ procKillTime`, a bus waiting for a read
to start fails with `READ_FAILED(TIMEOUT)` (stopping the RX state machine), and a bus
mid-write fails with `WRITE_FAILED(TIMEOUT)` (stopping both state machines and setting
the direction pin to input); in both cases the internal phase becomes `IDLE`. -/
theorem C5_kill_time_expiry (iw : Nat) (s : BusState) (now tc : Nat)
    (h : now ≥ s.mProcKillTime) :
    (s.mCurrentPhase = Phase.WAITING_FOR_READ_START →
      (processEvents iw s now tc).1.phase = Phase.READ_FAILED ∧
      (processEvents iw s now tc).1.failureReason = FailureReason.TIMEOUT ∧
      (processEvents iw s now tc).2.mCurrentPhase = Phase.IDLE ∧
      (processEvents iw s now tc).2.smInRunning = false) ∧
    (s.mCurrentPhase = Phase.WRITE_IN_PROGRESS →
      (processEvents iw s now tc).1.phase = Phase.WRITE_FAILED ∧
      (processEvents iw s now tc).1.failureReason = FailureReason.TIMEOUT ∧
      (processEvents iw s now tc).2.mCurrentPhase = Phase.IDLE ∧
      (processEvents iw s now tc).2.smOutRunning = false ∧
      (processEvents iw s now tc).2.smInRunning = false ∧
      (0 ≤ s.mDirPin → (processEvents iw s now tc).2.dirOutMode = false)) := by
  constructor
  · intro hp
    simp only [processEvents, hp, Status.init, putDirPin]
    split_ifs <;> simp_all
  · intro hp
    simp only [processEvents, hp, Status.init, putDirPin]
    split_ifs <;> simp_all

/-- A bus waiting for a response that never starts; kill time 500 µs. -/
def waitingReadState : BusState :=
  { mCurrentPhase := Phase.WAITING_FOR_READ_START, mReadBuffer := [], mLastRead := [],
    mLastReadTransferCount := 258, mLastReceivedWordTimeUs := 0, mProcKillTime := 500,
    mExpectingResponse := true, mResponseTimeoutUs := 500, mDirPin := 2,
    smOutRunning := false, smInRunning := true, dirOutMode := false }

/-- A bus mid-write whose kill time 500 µs has passed. -/
def midWriteState : BusState :=
  { mCurrentPhase := Phase.WRITE_IN_PROGRESS, mReadBuffer := [], mLastRead := [],
    mLastReadTransferCount := 258, mLastReceivedWordTimeUs := 0, mProcKillTime := 500,
    mExpectingResponse := false, mResponseTimeoutUs := 0, mDirPin := 2,
    smOutRunning := true, smInRunning := false, dirOutMode := true }

/-- Witness for C5: both kill-time transitions at t = 500 µs on concrete states. -/
theorem C5_kill_time_expiry_witness :
    ((processEvents 0 waitingReadState 500 258).1.phase = Phase.READ_FAILED ∧
     (processEvents 0 waitingReadState 500 258).1.failureReason = FailureReason.TIMEOUT ∧
     (processEvents 0 waitingReadState 500 258).2.mCurrentPhase = Phase.IDLE ∧
     (processEvents 0 waitingReadState 500 258).2.smInRunning = false) ∧
    ((processEvents 0 midWriteState 500 258).1.phase = Phase.WRITE_FAILED ∧
     (processEvents 0 midWriteState 500 258).1.failureReason = FailureReason.TIMEOUT ∧
     (processEvents 0 midWriteState 500 258).2.mCurrentPhase = Phase.IDLE ∧
     (processEvents 0 midWriteState 500 258).2.smOutRunning = false ∧
     (processEvents 0 midWriteState 500 258).2.smInRunning = false ∧
     (0 ≤ midWriteState.mDirPin → (processEvents 0 midWriteState 500 258).2.dirOutMode = false)) := by
  refine ⟨(C5_kill_time_expiry 0 waitingReadState 500 258 (by decide)).1 rfl, ?_⟩
  have h := (C5_kill_time_expiry 0 midWriteState 500 258 (by decide)).2 rfl
  exact ⟨h.1, h.2.1, h.2.2.1, h.2.2.2.1, h.2.2.2.2.1, fun _ => h.2.2.2.2.2 (by decide)⟩

/-- C6. The function `write` returns false whenever the phase is not `IDLE`; when the pre-write
line check observes either data line low during the configured window it aborts,
returning false with the state (hence the phase) unchanged; only on success does the
phase become `WRITE_IN_PROGRESS`. -/
theorem C6_write_guards (s : BusState) (a : Bool) (rt : Nat) (obs : List Bool)
    (now dur : Nat) :
    (s.mCurrentPhase ≠ Phase.IDLE → write s a rt obs now dur = (false, s)) ∧
    (lineCheck obs = false →
      (write s a rt obs now dur).1 = false ∧ (write s a rt obs now dur).2 = s) ∧
    ((write s a rt obs now dur).1 = true →
      s.mCurrentPhase = Phase.IDLE ∧ lineCheck obs = true ∧
      (write s a rt obs now dur).2.mCurrentPhase = Phase.WRITE_IN_PROGRESS) := by
  refine ⟨fun hb => ?_, fun hl => ?_, fun hs => ?_⟩ <;>
    simp only [write, putDirPin] at * <;>
    split_ifs at * <;> simp_all

/-- An idle bus with the direction pin on GPIO 2. -/
def idleBusState : BusState :=
  { mCurrentPhase := Phase.IDLE, mReadBuffer := [], mLastRead := [],
    mLastReadTransferCount := 258, mLastReceivedWordTimeUs := 0, mProcKillTime := 0,
    mExpectingResponse := false, mResponseTimeoutUs := 0, mDirPin := 2,
    smOutRunning := false, smInRunning := false, dirOutMode := false }

/-- Witness for C6: a busy bus rejects `write`; an idle bus whose line check sees a low
sample rejects `write` leaving the state unchanged; an idle bus with clean lines accepts
it and enters `WRITE_IN_PROGRESS`. -/
theorem C6_write_guards_witness :
    write midWriteState true 100 [true, true] 0 10 = (false, midWriteState) ∧
    ((write idleBusState true 100 [true, false, true] 0 10).1 = false ∧
     (write idleBusState true 100 [true, false, true] 0 10).2 = idleBusState) ∧
    ((write idleBusState true 100 [true, true] 0 10).1 = true →
      idleBusState.mCurrentPhase = Phase.IDLE ∧
      lineCheck [true, true] = true ∧
      (write idleBusState true 100 [true, true] 0 10).2.mCurrentPhase
        = Phase.WRITE_IN_PROGRESS) := by
  refine ⟨(C6_write_guards midWriteState true 100 [true, true] 0 10).1 (by decide),
    (C6_write_guards idleBusState true 100 [true, false, true] 0 10).2.1 (by decide),
    (C6_write_guards idleBusState true 100 [true, true] 0 10).2.2⟩

theorem cadence_min_aux (p v now : Nat) (hvp : v ≤ now + p)
    (u : Nat) (hu : now < u) (hcong : u % p = v % p) : v ≤ u := by
  by_contra hlt
  push_neg at hlt
  obtain ⟨k, hk⟩ := (Nat.modEq_iff_dvd' (Nat.le_of_lt hlt)).mp hcong
  have hk0 : k ≠ 0 := by
    rintro rfl
    simp at hk
    omega
  have hpk : p ≤ p * k := Nat.le_mul_of_pos_right p (Nat.pos_of_ne_zero hk0)
  omega

theorem cadence_spec (now p offset : Nat) (hp : 0 < p) :
    now < computeNextTimeCadence now p offset ∧
    computeNextTimeCadence now p offset % p = offset % p ∧
    computeNextTimeCadence now p offset ≤ now + p := by
  unfold computeNextTimeCadence
  have h1 : now / p * p ≤ now := Nat.div_mul_le_self _ _
  have h2 : now / p * p + now % p = now := by
    rw [Nat.mul_comm]
    exact Nat.div_add_mod now p
  have h3 : now % p < p := Nat.mod_lt _ hp
  have h4 : offset % p < p := Nat.mod_lt _ hp
  have h5 : (now / p * p + offset % p) % p = offset % p := by
    rw [Nat.add_comm, Nat.add_mul_mod_self_right, Nat.mod_mod]
  have h6 : (now / p * p + offset % p + p) % p = offset % p := by
    rw [Nat.add_mod_right]
    exact h5
  split_ifs with hc
  · exact ⟨hc, h5, by omega⟩
  · exact ⟨by omega, h6, by omega⟩

/-- C3. The helper `computeNextTimeCadence(now, period, offset)` with `period > 0` returns the
smallest `v` with `v > now` and `(v - offset) mod period == 0` (subtraction over ℤ, i.e.
`v ≡ offset (mod period)`); in the edge case `now == offset` it returns
`offset + period`; and `(150, 100, 50) ↦ 250`, `(250, 100, 50) ↦ 350`. -/
theorem C3_computeNextTimeCadence_minimal (now period offset : Nat) (hp : 0 < period) :
    now < computeNextTimeCadence now period offset ∧
    ((computeNextTimeCadence now period offset : Int) - (offset : Int)) % (period : Int)
      = 0 ∧
    (∀ u : Nat, now < u → ((u : Int) - (offset : Int)) % (period : Int) = 0 →
      computeNextTimeCadence now period offset ≤ u) ∧
    (now = offset → computeNextTimeCadence now period offset = offset + period) ∧
    computeNextTimeCadence 150 100 50 = 250 ∧
    computeNextTimeCadence 250 100 50 = 350 := by
  obtain ⟨h1, h2, h3⟩ := cadence_spec now period offset hp
  have hcast : ∀ a b : Nat,
      (((a : Int) - (b : Int)) % (period : Int) = 0) ↔ a % period = b % period := by
    intro a b
    rw [← Int.emod_eq_emod_iff_emod_sub_eq_zero]
    constructor
    · intro h
      exact_mod_cast h
    · intro h
      exact_mod_cast h
  refine ⟨h1, (hcast _ _).mpr h2, ?_, ?_, by decide, by decide⟩
  · intro u hu hc
    exact cadence_min_aux period _ now h3 u hu (((hcast _ _).mp hc).trans h2.symm)
  · intro he
    subst he
    unfold computeNextTimeCadence
    have hC : now / period * period + now % period = now := by
      rw [Nat.mul_comm]
      exact Nat.div_add_mod now period
    rw [if_neg (by omega)]
    omega

/-- Witness for C3: instantiated at `(now, period, offset) = (150, 100, 50)`. -/
theorem C3_computeNextTimeCadence_minimal_witness :
    150 < computeNextTimeCadence 150 100 50 ∧
    computeNextTimeCadence 150 100 50 = 250 ∧
    computeNextTimeCadence 250 100 50 = 350 := by
  have h := C3_computeNextTimeCadence_minimal 150 100 50 (by decide)
  exact ⟨h.1, h.2.2.2.2.1, h.2.2.2.2.2⟩

/-- C7. When a previously sent packet is buffered (`packetSent`) and the received
packet's command is `COMMAND_RESPONSE_REQUEST_RESEND`, the client pump re-transmits the
buffered packet verbatim, and the outcome is independent of the peripheral logic
(`dispense` is never consulted; this client main has no scheduler at all). -/
theorem C7_resend_verbatim (dispense : MaplePacket → Option MaplePacket)
    (st : ClientState) (status : Status) (conn : Bool) (addr : Nat)
    (hph : status.phase = Phase.READ_COMPLETE)
    (hcmd : (MaplePacket.set status.readBuffer status.readBufferLen).frame.command
      = COMMAND_RESPONSE_REQUEST_RESEND)
    (hsent : st.packetSent = true) :
    (core0HandleRead dispense st status conn addr).2 = some st.lastPacketOut ∧
    (∀ dispense' : MaplePacket → Option MaplePacket,
      core0HandleRead dispense st status conn addr
        = core0HandleRead dispense' st status conn addr) := by
  constructor
  · simp only [core0HandleRead, hph, hcmd, hsent]
    simp
  · intro d'
    simp only [core0HandleRead, hph, hcmd, hsent]
    simp

/-- A received frame word `0xFF002001`: command `0xFF` (resend request), sender `0x20`. -/
def resendRequestStatus : Status :=
  { phase := Phase.READ_COMPLETE, failureReason := FailureReason.NONE,
    readBuffer := [0xFF002001, 0xFF002001], readBufferLen := 2 }

/-- The client state after having sent one packet, which sits in the one-slot buffer. -/
def sentClientState : ClientState :=
  { lastSender := 0x00, packetSent := true,
    lastPacketOut := { frame := { command := 0x05, recipientAddr := 0x00,
                                  senderAddr := 0x20, length := 1 },
                       payload := [0x12345678] } }

/-- Witness for C7: the concrete resend request re-emits the buffered packet, with two
different peripheral-logic functions giving the same outcome. -/
theorem C7_resend_verbatim_witness :
    (core0HandleRead (fun _ => none) sentClientState resendRequestStatus true 0x20).2
      = some sentClientState.lastPacketOut ∧
    core0HandleRead (fun _ => none) sentClientState resendRequestStatus true 0x20
      = core0HandleRead (fun p => some p) sentClientState resendRequestStatus true 0x20 := by
  have h := C7_resend_verbatim (fun _ => none) sentClientState resendRequestStatus true
    0x20 (by decide) (by decide) (by decide)
  exact ⟨h.1, h.2 _⟩

/-- C9. When a receive ends in `READ_FAILED(CRC_INVALID)` while the peripheral is
connected (operating as a responding peripheral) and a previously sent packet is
buffered, the client replies with a `COMMAND_RESPONSE_REQUEST_RESEND` packet addressed
to the last sender rather than staying silent. -/
theorem C9_crc_failure_requests_resend (dispense : MaplePacket → Option MaplePacket)
    (st : ClientState) (status : Status) (addr : Nat)
    (hph : status.phase = Phase.READ_FAILED)
    (hres : status.failureReason = FailureReason.CRC_INVALID)
    (_hsent : st.packetSent = true) :
    (core0HandleRead dispense st status true addr).2
      = some { frame := { command := COMMAND_RESPONSE_REQUEST_RESEND,
                          recipientAddr := st.lastSender,
                          senderAddr := addr,
                          length := 0 },
               payload := [] } := by
  simp only [core0HandleRead, hph, hres, Frame.defaultFrame]
  simp

/-- Witness for C9: a CRC-failed read at `sentClientState` (last sender `0x00`) produces
a resend request to `0x00` from address `0x20`. -/
theorem C9_crc_failure_requests_resend_witness :
    (core0HandleRead (fun _ => none) sentClientState
        { phase := Phase.READ_FAILED, failureReason := FailureReason.CRC_INVALID,
          readBuffer := [], readBufferLen := 0 } true 0x20).2
      = some { frame := { command := COMMAND_RESPONSE_REQUEST_RESEND,
                          recipientAddr := sentClientState.lastSender,
                          senderAddr := 0x20,
                          length := 0 },
               payload := [] } := by
  exact C9_crc_failure_requests_resend (fun _ => none) sentClientState _ 0x20
    rfl rfl rfl

/-- A valid packet whose recipient has lower 6 bits `0`. -/
def cexPacket : MaplePacket :=
  { frame := { command := 0x09, recipientAddr := 0x00, senderAddr := 0x00, length := 0 },
    payload := [] }

/-- C8 counterexample. With the single configured sender address `0x01`, submitting
`cexPacket` (recipient `0x00`) schedules a packet whose recipient's lower 6 bits are `1`,
not the original `0`: the code ORs the whole sender address into the recipient, so the
lower 6 bits are not preserved when the sender address has nonzero lower bits. -/
theorem C8_low_bits_not_preserved_counterexample :
    (flycastSchedule cexPacket [0x01]).map (fun x => x.2.frame.recipientAddr &&& 0x3F)
      = some 1 ∧
    cexPacket.frame.recipientAddr &&& 0x3F = 0 := by
  decide

theorem masked_lor_low (r sa : Nat) (h : sa &&& 63 = 0) :
    ((r &&& 63) ||| sa) &&& 63 = r &&& 63 := by
  apply Nat.eq_of_testBit_eq
  intro i
  have hsa : (sa.testBit i && (63 : Nat).testBit i) = false := by
    rw [← Nat.testBit_and, h, Nat.zero_testBit]
  simp only [Nat.testBit_and, Nat.testBit_lor]
  rcases hb : (63 : Nat).testBit i with _ | _
  · simp [hb]
  · simp only [hb, Bool.and_true] at hsa
    simp [hb, hsa]

theorem masked_lor_high (r sa : Nat) :
    ((r &&& 63) ||| sa) >>> 6 = sa >>> 6 := by
  apply Nat.eq_of_testBit_eq
  intro i
  have h63 : (63 : Nat).testBit (6 + i) = false := by
    have : (63 : Nat) < 2 ^ (6 + i) := by
      calc (63 : Nat) < 2 ^ 6 := by norm_num
        _ ≤ 2 ^ (6 + i) := Nat.pow_le_pow_right (by norm_num) (by omega)
    exact Nat.testBit_lt_two_pow this
  simp [Nat.testBit_shiftRight, Nat.testBit_lor, Nat.testBit_and, h63]

/-- C8 amended. When exactly one sender address `sa` is configured, every valid
submitted packet is scheduled (on scheduler 0) with `senderAddr` rewritten to `sa` and
`recipientAddr` rewritten to `(recipientAddr & 0x3F) | sa`; when `sa`'s lower 6 bits are
zero (as for real Maple port addresses) this preserves the recipient's lower 6 bits and
makes its upper bits match `sa`'s. -/
theorem C8_single_sender_rewrite (packet : MaplePacket) (sa : Nat)
    (hv : packet.isValid = true) :
    flycastSchedule packet [sa]
      = some (0, { packet with frame := { packet.frame with
          senderAddr := sa,
          recipientAddr := (packet.frame.recipientAddr &&& 0x3F) ||| sa } }) ∧
    (sa &&& 0x3F = 0 →
      ((packet.frame.recipientAddr &&& 0x3F) ||| sa) &&& 0x3F
        = packet.frame.recipientAddr &&& 0x3F ∧
      ((packet.frame.recipientAddr &&& 0x3F) ||| sa) >>> 6 = sa >>> 6) := by
  refine ⟨?_, fun h0 => ⟨masked_lor_low _ _ h0, masked_lor_high _ _⟩⟩
  simp [flycastSchedule, hv]

/-- Witness for C8 (amended): a valid packet with recipient `0x21` and single sender
`0x40` is rewritten to sender `0x40`, recipient `0x61`; lower 6 bits `0x21` preserved,
upper bits matching `0x40`. -/
theorem C8_single_sender_rewrite_witness :
    flycastSchedule
        { frame := { command := 0x01, recipientAddr := 0x21, senderAddr := 0x00,
                     length := 0 }, payload := [] } [0x40]
      = some (0, { frame := { command := 0x01, recipientAddr := 0x61, senderAddr := 0x40,
                              length := 0 }, payload := [] }) ∧
    (0x61 &&& 0x3F) = (0x21 : Nat) &&& 0x3F ∧ (0x61 : Nat) >>> 6 = (0x40 : Nat) >>> 6 := by
  have h := C8_single_sender_rewrite
    { frame := { command := 0x01, recipientAddr := 0x21, senderAddr := 0x00,
                 length := 0 }, payload := [] } 0x40 (by decide)
  refine ⟨?_, ?_, ?_⟩
  · rw [h.1]
    decide
  · have := (h.2 (by decide)).1
    decide
  · have := (h.2 (by decide)).2
    decide

/-- Embedding of `ScreenData::DEFAULT_SCREENS` (part_004:30-63): four default screens of 48 words. -/
def DEFAULT_SCREENS : List (List Nat) :=
  [[0x1FF8FFFF, 0xFFF80000, 0x00000000, 0x00004E81, 0x5BF80000, 0x46C53208, 0x0000B801,
    0xF2E803E0, 0xBFCE8AE8, 0x0FF04FA6, 0x92E81C38, 0x78895A08, 0x1BD84A87, 0xA3F81BD8,
    0xE8FD9800, 0x18182FCA, 0x16481FF8, 0xCFDDF080, 0x0FF0CD31, 0xF7A80000, 0x97242DA0,
    0x0000419F, 0x16980000, 0x5BFB5C00, 0x0C30F68C, 0x02780C30, 0x004424B8, 0x0C30D7D8,
    0xAE580C30, 0x6806AD90, 0x0FF07D68, 0xF6680FF0, 0x92B60D68, 0x0C300584, 0x4B480C30,
    0x0032A000, 0x0C30FEAA, 0xABF80C30, 0x82F3AA08, 0x0FF0BA3B, 0x92E807E0, 0xBA2732E8,
    0x0000BA19, 0xF2E80000, 0x8287C208, 0x0000FE69, 0x83F80000, 0x00000000],
   [0x1FF8FFFF, 0xFFF80000, 0x00000000, 0x00004E81, 0x5BF80000, 0x46C53208, 0x0000B801,
    0xF2E803E0, 0xBFCE8AE8, 0x0FF04FA6, 0x92E81C38, 0x78895A08, 0x1BD84A87, 0xA3F81BD8,
    0xE8FD9800, 0x18182FCA, 0x16481FF8, 0xCFDDF080, 0x0FF0CD31, 0xF7A80000, 0x97242DA0,
    0x0000419F, 0x16980000, 0x5BFB5C00, 0x07F0F68C, 0x02780FF0, 0x004424B8, 0x0C30D7D8,
    0xAE580C30, 0x6806AD90, 0x0C307D68, 0xF66807F0, 0x92B60D68, 0x07F00584, 0x4B480C30,
    0x0032A000, 0x0C30FEAA, 0xABF80C30, 0x82F3AA08, 0x0FF0BA3B, 0x92E807F0, 0xBA2732E8,
    0x0000BA19, 0xF2E80000, 0x8287C208, 0x0000FE69, 0x83F80000, 0x00000000],
   [0x1FF8FFFF, 0xFFF80000, 0x00000000, 0x00004E81, 0x5BF80000, 0x46C53208, 0x0000B801,
    0xF2E803E0, 0xBFCE8AE8, 0x0FF04FA6, 0x92E81C38, 0x78895A08, 0x1BD84A87, 0xA3F81BD8,
    0xE8FD9800, 0x18182FCA, 0x16481FF8, 0xCFDDF080, 0x0FF0CD31, 0xF7A80000, 0x97242DA0,
    0x0000419F, 0x16980000, 0x5BFB5C00, 0x07E0F68C, 0x02780FF0, 0x004424B8, 0x0C30D7D8,
    0xAE580030, 0x6806AD90, 0x00307D68, 0xF6680030, 0x92B60D68, 0x00300584, 0x4B480030,
    0x0032A000, 0x0030FEAA, 0xABF80C30, 0x82F3AA08, 0x0FF0BA3B, 0x92E807E0, 0xBA2732E8,
    0x0000BA19, 0xF2E80000, 0x8287C208, 0x0000FE69, 0x83F80000, 0x00000000],
   [0x1FF8FFFF, 0xFFF80000, 0x00000000, 0x00004E81, 0x5BF80000, 0x46C53208, 0x0000B801,
    0xF2E803E0, 0xBFCE8AE8, 0x0FF04FA6, 0x92E81C38, 0x78895A08, 0x1BD84A87, 0xA3F81BD8,
    0xE8FD9800, 0x18182FCA, 0x16481FF8, 0xCFDDF080, 0x0FF0CD31, 0xF7A80000, 0x97242DA0,
    0x0000419F, 0x16980000, 0x5BFB5C00, 0x03F0F68C, 0x027807F0, 0x004424B8, 0x0E30D7D8,
    0xAE580C30, 0x6806AD90, 0x0C307D68, 0xF6680C30, 0x92B60D68, 0x0C300584, 0x4B480C30,
    0x0032A000, 0x0C30FEAA, 0xABF80E30, 0x82F3AA08, 0x07F0BA3B, 0x92E803F0, 0xBA2732E8,
    0x0000BA19, 0xF2E80000, 0x8287C208, 0x0000FE69, 0x83F80000, 0x00000000]]

/-- C10. The sanitization in `ScreenData::ScreenData` and
`ScreenData::setDataToADefault` only replaces arguments *greater than*
`NUM_DEFAULT_SCREENS` by 0, so `defaultScreenNum == NUM_DEFAULT_SCREENS == 4` slips
through and the code reads `DEFAULT_SCREENS[4]`, one element past the end of the
4-element array: the claimed in-bounds property fails at exactly this input. -/
theorem C10_default_screen_index_out_of_bounds :
    DEFAULT_SCREENS.length = NUM_DEFAULT_SCREENS ∧
    clampDefaultScreenNum NUM_DEFAULT_SCREENS = NUM_DEFAULT_SCREENS ∧
    ¬ clampDefaultScreenNum NUM_DEFAULT_SCREENS < NUM_DEFAULT_SCREENS ∧
    DEFAULT_SCREENS.get? (clampDefaultScreenNum NUM_DEFAULT_SCREENS) = none := by
  refine ⟨by rfl, by decide, by decide, ?_⟩
  have h : clampDefaultScreenNum NUM_DEFAULT_SCREENS = 4 := by decide
  rw [h]
  rfl

end DreamPort
